import Mathlib

/-!
Verification of the watchman client PDU layer
(`src/rust/watchman_client/src/pdu.rs`).

We give a shallow embedding of the PDU data model and of its serde
encode/decode behaviour over a structured wire-value type `Json`:
struct serialization produces a key/value object whose keys appear in
field-declaration order, with `skip_serializing_if` fields omitted;
derived deserialization is modelled as key lookup with serde semantics
(missing `Option` fields and JSON `null` decode to `none`, missing
`#[serde(default)]` booleans decode to `false`, unknown keys are
ignored, untagged enums try their variants in declaration order).
Struct-from-sequence decoding and duplicate-key rejection, which
serde_json also implements, are outside the shapes exercised here and
are not modelled.  A Rust abort (the `FileType` decoder aborts on an
unknown discriminant) is modelled as decode failure `none`.
-/

/-- Structured wire values (the JSON-like data model used by the
watchman protocol codecs; no floating point values are needed by the
PDU shapes verified here). -/
inductive Json where
  | null : Json
  | bool (b : Bool) : Json
  | int (n : Int) : Json
  | str (s : String) : Json
  | arr (elems : List Json) : Json
  | obj (kvs : List (String × Json)) : Json

/-- Constructor test used by the `Option` decoding rule (serde decodes
JSON `null` into an `Option` field as `none`). -/
def Json.isNull : Json → Bool
  | .null => true
  | _ => false

/-- First-match key lookup in an encoded object body. -/
def getKeyList (key : String) : List (String × Json) → Option Json
  | [] => none
  | (k, v) :: rest => if k = key then some v else getKeyList key rest

/-- Key lookup on a wire value: only objects have keys. -/
def Json.getKey (j : Json) (key : String) : Option Json :=
  match j with
  | .obj kvs => getKeyList key kvs
  | _ => none

/-- The list of keys present on a wire value. -/
def Json.keys : Json → List String
  | .obj kvs => kvs.map Prod.fst
  | _ => []

/-- Serde helper: an optional struct field annotated
`skip_serializing_if = "Option::is_none"` (or `skip_serializing_none`)
contributes its key exactly when the option is populated. -/
def optField (name : String) (enc : α → Json) : Option α → List (String × Json)
  | none => []
  | some v => [(name, enc v)]

/-- Serde helper: a boolean struct field annotated
`skip_serializing_if = "is_false"` contributes its key exactly when the
flag is `true`. -/
def flagField (name : String) (b : Bool) : List (String × Json) :=
  if b then [(name, Json.bool b)] else []

/-- Serde helper: a struct field with a custom `skip_serializing_if`
predicate; `skip` is the predicate's value on the field. -/
def condField (skip : Bool) (name : String) (val : Json) : List (String × Json) :=
  if skip then [] else [(name, val)]

/-- Decode a JSON array elementwise (serde `Vec<T>` deserialization):
every element must decode, otherwise the whole list fails. -/
def decodeList (dec : Json → Option α) : List Json → Option (List α)
  | [] => some []
  | j :: rest => do
      let x ← dec j
      let xs ← decodeList dec rest
      pure (x :: xs)

@[simp] theorem keys_obj (kvs : List (String × Json)) :
    Json.keys (.obj kvs) = kvs.map Prod.fst := rfl

@[simp] theorem getKeyList_nil (key : String) : getKeyList key [] = none := rfl

@[simp] theorem getKeyList_cons (key k : String) (v : Json) (rest : List (String × Json)) :
    getKeyList key ((k, v) :: rest) =
      if k = key then some v else getKeyList key rest := rfl

theorem getKeyList_append (key : String) (l₁ l₂ : List (String × Json)) :
    getKeyList key (l₁ ++ l₂) =
      (getKeyList key l₁).orElse fun _ => getKeyList key l₂ := by
  induction l₁ with
  | nil => simp [Option.orElse]
  | cons hd tl ih =>
      obtain ⟨k, v⟩ := hd
      by_cases h : k = key <;> simp [h, ih, Option.orElse]

@[simp] theorem getKeyList_optField_self (key : String) (enc : α → Json) (v : Option α) :
    getKeyList key (optField key enc v) = v.map enc := by
  cases v <;> simp [optField]

theorem getKeyList_optField_ne (key name : String) (h : name ≠ key)
    (enc : α → Json) (v : Option α) :
    getKeyList key (optField name enc v) = none := by
  cases v <;> simp [optField, h]

theorem getKeyList_flagField_ne (key name : String) (h : name ≠ key) (b : Bool) :
    getKeyList key (flagField name b) = none := by
  cases b <;> simp [flagField, h]

@[simp] theorem mem_keys_optField (key name : String) (enc : α → Json) (v : Option α) :
    (key ∈ (optField name enc v).map Prod.fst) ↔ (key = name ∧ v.isSome = true) := by
  cases v <;> simp [optField, eq_comm]

@[simp] theorem mem_keys_flagField (key name : String) (b : Bool) :
    (key ∈ (flagField name b).map Prod.fst) ↔ (key = name ∧ b = true) := by
  cases b <;> simp [flagField, eq_comm]

@[simp] theorem mem_keys_condField (key name : String) (skip : Bool) (val : Json) :
    (key ∈ (condField skip name val).map Prod.fst) ↔ (key = name ∧ skip = false) := by
  cases skip <;> simp [condField, eq_comm]

/-! ## FileType (`pdu.rs` lines 583-632)

`FileType` is a closed 8-variant enumeration with
`#[serde(from = "String", into = "String")]`: the wire form is a
single-character string. -/

inductive FileType where
  | BlockSpecial
  | CharSpecial
  | Directory
  | Regular
  | Fifo
  | Symlink
  | Socket
  | SolarisDoor
deriving DecidableEq

/-- Embedding of `impl Into<String> for FileType` (`pdu.rs` lines 618-632). -/
def FileType.intoString : FileType → String
  | .BlockSpecial => "b"
  | .CharSpecial => "c"
  | .Directory => "d"
  | .Regular => "f"
  | .Fifo => "p"
  | .Symlink => "l"
  | .Socket => "s"
  | .SolarisDoor => "D"

/-- Embedding of `impl From<String> for FileType` (`pdu.rs` lines 602-616).  The
`unknown` arm aborts the process in Rust; an abort never yields a
value, so it is modelled as decode failure `none`. -/
def FileType.fromString (s : String) : Option FileType :=
  if s = "b" then some .BlockSpecial
  else if s = "c" then some .CharSpecial
  else if s = "d" then some .Directory
  else if s = "f" then some .Regular
  else if s = "p" then some .Fifo
  else if s = "l" then some .Symlink
  else if s = "s" then some .Socket
  else if s = "D" then some .SolarisDoor
  else none

/-- Claim C1: every one of the 8 `FileType` variants survives an
encode/decode round trip through its single-character wire string, and
decoding the one-character string of any character outside
`{b, c, d, f, p, l, s, D}` fails (the abort arm), never producing a
fallback variant. -/
theorem fileType_codec_roundtrip_and_rejects_unknown :
    (∀ v : FileType, FileType.fromString (FileType.intoString v) = some v) ∧
    (∀ c : Char, c ∉ ['b', 'c', 'd', 'f', 'p', 'l', 's', 'D'] →
      FileType.fromString (String.mk [c]) = none) := by
  constructor
  · intro v; cases v <;> decide
  · intro c hc
    simp only [List.mem_cons, List.not_mem_nil, or_false, not_or] at hc
    obtain ⟨h1, h2, h3, h4, h5, h6, h7, h8⟩ := hc
    simp [FileType.fromString, String.ext_iff, h1, h2, h3, h4, h5, h6, h7, h8]

/-- Witness for C1 at the concrete character `x` (not a wire
discriminant) and the concrete variant `Regular`. -/
theorem fileType_codec_witness :
    FileType.fromString (String.mk ['x']) = none ∧
    FileType.fromString (FileType.intoString .Regular) = some .Regular :=
  ⟨fileType_codec_roundtrip_and_rejects_unknown.2 'x' (by decide),
   fileType_codec_roundtrip_and_rejects_unknown.1 .Regular⟩

/-! ## SyncTimeout (`pdu.rs` lines 73-143)

`std::time::Duration` (embedded here as `StdDuration`, to keep the
name free for the `SyncTimeout::Duration` constructor) holds a whole
number of nanoseconds
(`u64` seconds plus sub-second nanoseconds); we embed it as that
nanosecond count.  `as_millis` truncates to whole milliseconds and
returns `u128`.  All concrete values used below are within the Rust
representable range. -/

structure StdDuration where
  nanos : Nat
deriving DecidableEq

/-- Embedding of `Duration::from_millis`. -/
def StdDuration.ofMillis (ms : Nat) : StdDuration := ⟨ms * 1000000⟩

/-- Embedding of `Duration::from_micros`. -/
def StdDuration.ofMicros (us : Nat) : StdDuration := ⟨us * 1000⟩

/-- Embedding of `Duration::as_millis`: truncating division to whole milliseconds. -/
def StdDuration.asMillis (d : StdDuration) : Nat := d.nanos / 1000000

/-- The value of a `u128 as i64` primitive cast in Rust: keep the low
64 bits and reinterpret them as a two's-complement signed integer. -/
def u128AsI64 (n : Nat) : Int :=
  if n % 2 ^ 64 < 2 ^ 63 then (n % 2 ^ 64 : Int) else (n % 2 ^ 64 : Int) - 2 ^ 64

inductive SyncTimeout where
  | Default
  | DisableCookie
  | Duration (d : StdDuration)
deriving DecidableEq

/-- Embedding of `SyncTimeout::is_default` (`pdu.rs` lines 100-105). -/
def SyncTimeout.is_default : SyncTimeout → Bool
  | .Default => true
  | _ => false

/-- Embedding of `SyncTimeout::is_disabled` (`pdu.rs` lines 107-112). -/
def SyncTimeout.is_disabled : SyncTimeout → Bool
  | .DisableCookie => true
  | _ => false

/-- Embedding of `impl From<std::time::Duration> for SyncTimeout`
(`pdu.rs` lines 115-124): a duration whose whole-millisecond count is
zero becomes `DisableCookie`, any other duration is kept as is. -/
def SyncTimeout.fromDuration (duration : StdDuration) : SyncTimeout :=
  if duration.asMillis = 0 then .DisableCookie else .Duration duration

/-- Embedding of `impl Into<i64> for SyncTimeout` (`pdu.rs` lines 126-143); the
`Duration` arm is `d.as_millis() as i64`, a truncating cast. -/
def SyncTimeout.intoI64 : SyncTimeout → Int
  | .Default => 60000
  | .DisableCookie => 0
  | .Duration d => u128AsI64 d.asMillis

/-- Claim C2 counterexample: `Duration::from_micros(500)` is a strictly
positive duration, yet `From<Duration>` produces `DisableCookie` (its
whole-millisecond count is 0), not `Duration` of that duration — so
"any positive duration yields Duration of that duration" is false. -/
theorem syncTimeout_positive_submilli_counterexample :
    0 < (StdDuration.ofMicros 500).nanos ∧
    SyncTimeout.fromDuration (StdDuration.ofMicros 500) = SyncTimeout.DisableCookie ∧
    SyncTimeout.fromDuration (StdDuration.ofMicros 500) ≠
      SyncTimeout.Duration (StdDuration.ofMicros 500) := by
  decide

/-- Claim C2 as amended: `SyncTimeout` encodes to a signed 64-bit
millisecond integer with `Default → 60000`, `DisableCookie → 0`, and
`Duration d → d`'s millisecond value whenever that value fits in `i64`
(e.g. 1500 ms encodes to 1500); constructing a `SyncTimeout` from a
duration yields `DisableCookie` exactly when the duration's
whole-millisecond count is zero (so for the zero-length duration and
also for positive sub-millisecond durations), never `Duration(0)`, and
yields `Duration` of that duration for every duration of at least one
millisecond. -/
theorem syncTimeout_encode_and_normalization (d : StdDuration) :
    SyncTimeout.intoI64 .Default = 60000 ∧
    SyncTimeout.intoI64 .DisableCookie = 0 ∧
    SyncTimeout.intoI64 (.Duration (StdDuration.ofMillis 1500)) = 1500 ∧
    (d.asMillis = 0 → SyncTimeout.fromDuration d = .DisableCookie) ∧
    (d.asMillis ≠ 0 → SyncTimeout.fromDuration d = .Duration d) ∧
    (d.asMillis < 2 ^ 63 → SyncTimeout.intoI64 (.Duration d) = (d.asMillis : Int)) := by
  refine ⟨rfl, rfl, by decide, ?_, ?_, ?_⟩
  · intro h; simp [SyncTimeout.fromDuration, h]
  · intro h; simp [SyncTimeout.fromDuration, h]
  · intro h
    simp only [SyncTimeout.intoI64, u128AsI64]
    split <;> omega

/-- Witness for C2's amended theorem at the concrete 5 ms duration. -/
theorem syncTimeout_encode_witness :
    SyncTimeout.fromDuration (StdDuration.ofMillis 5) =
      SyncTimeout.Duration (StdDuration.ofMillis 5) ∧
    SyncTimeout.intoI64 (SyncTimeout.Duration (StdDuration.ofMillis 5)) = 5 :=
  ⟨(syncTimeout_encode_and_normalization (StdDuration.ofMillis 5)).2.2.2.2.1 (by decide),
   ((syncTimeout_encode_and_normalization
      (StdDuration.ofMillis 5)).2.2.2.2.2 (by decide)).trans (by decide)⟩

/-- Claim C10: when a `SyncTimeout::Duration` carries a millisecond
count past `i64::MAX`, the encoding neither fails nor saturates: the
`u128 as i64` cast keeps the low 64 bits as a two's-complement value,
so whenever those low 64 bits have the sign bit set, the encoded
`sync_timeout` integer is negative. -/
theorem syncTimeout_overflow_wraps (d : StdDuration)
    (h : 2 ^ 63 ≤ d.asMillis % 2 ^ 64) :
    SyncTimeout.intoI64 (.Duration d) = (d.asMillis % 2 ^ 64 : Int) - 2 ^ 64 ∧
    SyncTimeout.intoI64 (.Duration d) < 0 := by
  have hnot : ¬ (d.asMillis % 2 ^ 64 < 2 ^ 63) := not_lt.mpr h
  have h1 : SyncTimeout.intoI64 (.Duration d) = (d.asMillis % 2 ^ 64 : Int) - 2 ^ 64 := by
    simp only [SyncTimeout.intoI64, u128AsI64]
    split <;> omega
  refine ⟨h1, ?_⟩
  rw [h1]
  omega

/-- Witness for C10 at the concrete duration of `2 ^ 63` milliseconds
(about 292 million years, representable in `std::time::Duration`):
the encoded timeout is negative. -/
theorem syncTimeout_overflow_witness :
    SyncTimeout.intoI64 (SyncTimeout.Duration (StdDuration.ofMillis (2 ^ 63))) < 0 :=
  (syncTimeout_overflow_wraps (StdDuration.ofMillis (2 ^ 63)) (by decide)).2

/-! ## ClockSpec and the Clock family (`pdu.rs` lines 433-552)

`ClockSpec` is a newtype over the opaque token string; serde encodes a
newtype struct as its inner value, so its wire form is a bare string.
`Clock` is `#[serde(untagged)]` with `Spec` declared before
`ScmAware`; untagged decoding tries the variants in declaration order.
`FatClockData`, `ScmAwareClockData` and `SavedStateClockData` are
`#[skip_serializing_none]` structs. -/

structure ClockSpec where
  val : String
deriving DecidableEq

/-- Embedding of `ClockSpec::null` (`pdu.rs` lines 480-482). -/
def ClockSpec.null : ClockSpec := ⟨"c:0:0"⟩

/-- Embedding of `impl Default for ClockSpec` (`pdu.rs` lines 466-470). -/
def ClockSpec.default : ClockSpec := ClockSpec.null

/-- Embedding of `ClockSpec::named_cursor` (`pdu.rs` lines 503-505):
`format!("n:{}", cursor)`. -/
def ClockSpec.named_cursor (cursor : String) : ClockSpec := ⟨"n:" ++ cursor⟩

/-- Embedding of `ClockSpec::unix_timestamp` (`pdu.rs` lines 513-515):
`time_t.to_string()`, the decimal rendering of the `i64`. -/
def ClockSpec.unix_timestamp (time_t : Int) : ClockSpec := ⟨toString time_t⟩

/-- Serde encoding of the `ClockSpec` newtype: the inner string. -/
def ClockSpec.toJson (c : ClockSpec) : Json := .str c.val

/-- Serde decoding of the `ClockSpec` newtype: a wire string. -/
def ClockSpec.fromJson : Json → Option ClockSpec
  | .str s => some ⟨s⟩
  | _ => none

/-- Serde decoding of an `Option<String>` field: missing and `null`
give `none`, a string gives `some`, anything else fails. -/
def decOptStr (key : String) (kvs : List (String × Json)) : Option (Option String) :=
  match getKeyList key kvs with
  | none => some none
  | some .null => some none
  | some (.str s) => some (some s)
  | some _ => none

/-- Serde decoding of an `Option<serde_json::Value>` field: missing
and `null` give `none`, any other value is kept verbatim. -/
def decOptVal (key : String) (kvs : List (String × Json)) : Option (Option Json) :=
  match getKeyList key kvs with
  | none => some none
  | some v => if v.isNull then some none else some (some v)

/-- Serde decoding of an `Option<T>` field for a struct `T`: missing
and `null` give `none`, otherwise `T`'s decoder must succeed. -/
def decOptWith (dec : Json → Option α) (key : String) (kvs : List (String × Json)) :
    Option (Option α) :=
  match getKeyList key kvs with
  | none => some none
  | some v => if v.isNull then some none else (dec v).map some

/-- Embedding of `SavedStateClockData` (`pdu.rs` lines 545-552); `commit` is wire
key `commit-id`. -/
structure SavedStateClockData where
  storage : Option String
  commit : Option String
  config : Option Json

/-- Serde encoding of `SavedStateClockData` (`skip_serializing_none`). -/
def SavedStateClockData.toJson (s : SavedStateClockData) : Json :=
  .obj (optField "storage" Json.str s.storage ++
        optField "commit-id" Json.str s.commit ++
        optField "config" id s.config)

/-- Serde decoding of `SavedStateClockData`. -/
def SavedStateClockData.fromJson : Json → Option SavedStateClockData
  | .obj kvs => do
      let storage ← decOptStr "storage" kvs
      let commit ← decOptStr "commit-id" kvs
      let config ← decOptVal "config" kvs
      pure ⟨storage, commit, config⟩
  | _ => none

/-- Embedding of `ScmAwareClockData` (`pdu.rs` lines 531-540); `mergebase_with` is
wire key `mergebase-with`, `saved_state` is wire key `saved-state`. -/
structure ScmAwareClockData where
  mergebase : Option String
  mergebase_with : Option String
  saved_state : Option SavedStateClockData

/-- Serde encoding of `ScmAwareClockData` (`skip_serializing_none`). -/
def ScmAwareClockData.toJson (s : ScmAwareClockData) : Json :=
  .obj (optField "mergebase" Json.str s.mergebase ++
        optField "mergebase-with" Json.str s.mergebase_with ++
        optField "saved-state" SavedStateClockData.toJson s.saved_state)

/-- Serde decoding of `ScmAwareClockData`. -/
def ScmAwareClockData.fromJson : Json → Option ScmAwareClockData
  | .obj kvs => do
      let mergebase ← decOptStr "mergebase" kvs
      let mergebase_with ← decOptStr "mergebase-with" kvs
      let saved_state ← decOptWith SavedStateClockData.fromJson "saved-state" kvs
      pure ⟨mergebase, mergebase_with, saved_state⟩
  | _ => none

/-- Embedding of `FatClockData` (`pdu.rs` lines 521-526): a required `clock` token
plus an optional `scm` block. -/
structure FatClockData where
  clock : ClockSpec
  scm : Option ScmAwareClockData

/-- Serde encoding of `FatClockData` (`skip_serializing_none`). -/
def FatClockData.toJson (f : FatClockData) : Json :=
  .obj ([("clock", f.clock.toJson)] ++ optField "scm" ScmAwareClockData.toJson f.scm)

/-- Serde decoding of `FatClockData`: `clock` is required. -/
def FatClockData.fromJson : Json → Option FatClockData
  | .obj kvs => do
      let cj ← getKeyList "clock" kvs
      let clock ← ClockSpec.fromJson cj
      let scm ← decOptWith ScmAwareClockData.fromJson "scm" kvs
      pure ⟨clock, scm⟩
  | _ => none

/-- Embedding of `Clock` (`pdu.rs` lines 444-451), `#[serde(untagged)]`. -/
inductive Clock where
  | Spec (spec : ClockSpec)
  | ScmAware (fat : FatClockData)

/-- Serde encoding of the untagged `Clock`: each variant encodes as
its payload, with no tag. -/
def Clock.toJson : Clock → Json
  | .Spec s => s.toJson
  | .ScmAware f => f.toJson

/-- Serde decoding of the untagged `Clock`: try the variants in
declaration order — `Spec` (a bare token string) first, then
`ScmAware` (the structured shape). -/
def Clock.fromJson (j : Json) : Option Clock :=
  match ClockSpec.fromJson j with
  | some s => some (.Spec s)
  | none => (FatClockData.fromJson j).map .ScmAware

/-- Claim C5: the three `ClockSpec` constructors produce exactly the
specified token strings — `null` (and `default`) the literal
`"c:0:0"`, `named_cursor` the name behind `"n:"`, `unix_timestamp`
the decimal rendering of the integer. -/
theorem clockSpec_constructor_tokens (name : String) (t : Int) :
    ClockSpec.null.val = "c:0:0" ∧
    ClockSpec.default = ClockSpec.null ∧
    (ClockSpec.named_cursor name).val = "n:" ++ name ∧
    (ClockSpec.unix_timestamp t).val = toString t ∧
    (ClockSpec.named_cursor "foo").val = "n:foo" ∧
    (ClockSpec.unix_timestamp 1690000000).val = "1690000000" ∧
    (ClockSpec.unix_timestamp (-5)).val = "-5" :=
  ⟨rfl, rfl, rfl, rfl, rfl, by decide, by decide⟩

/-- Claim C6: decoding a `Clock` tries the bare-token shape first and
falls back to the structured `FatClockData` shape only when the token
shape fails; it fails only when both shapes fail; a wire string always
decodes as the bare-token variant (there is no tag on the wire). -/
theorem clock_decode_priority (j : Json) (s : String) :
    Clock.fromJson j =
      (Option.map Clock.Spec (ClockSpec.fromJson j)).orElse
        (fun _ => Option.map Clock.ScmAware (FatClockData.fromJson j)) ∧
    (Clock.fromJson j = none ↔
      ClockSpec.fromJson j = none ∧ FatClockData.fromJson j = none) ∧
    Clock.fromJson (.str s) = some (.Spec ⟨s⟩) := by
  refine ⟨?_, ?_, rfl⟩
  · cases h : ClockSpec.fromJson j <;> simp [Clock.fromJson, h, Option.orElse]
  · cases h : ClockSpec.fromJson j <;>
      simp [Clock.fromJson, h, Option.map_eq_none']

/-! ## Subscribe request and the since-clock round trip -/

/-- Modelled from the spec: the filter-expression type `Expr` lives in
`crate::expr`, outside this module; the spec treats it as "an opaque
sub-grammar passed through unevaluated", so it is embedded as the wire
value it passes through. -/
structure Expr where
  raw : Json

/-- Serde encoding of the opaque filter expression: its wire value. -/
def Expr.toJson (e : Expr) : Json := e.raw

/-- Embedding of `SubscribeRequest` (`pdu.rs` lines 336-390); paths are embedded as
their strings, the field list as its list of names. -/
structure SubscribeRequest where
  since : Option Clock
  relative_root : Option String
  expression : Option Expr
  fields : List String
  empty_on_fresh_instance : Bool
  case_sensitive : Bool

/-- Serde encoding of `SubscribeRequest`: fields in declaration order,
optional fields omitted when `none`, boolean flags omitted when
`false`, `fields` always present. -/
def SubscribeRequest.toJson (r : SubscribeRequest) : Json :=
  .obj (optField "since" Clock.toJson r.since ++
        optField "relative_root" Json.str r.relative_root ++
        optField "expression" Expr.toJson r.expression ++
        [("fields", .arr (r.fields.map Json.str))] ++
        flagField "empty_on_fresh_instance" r.empty_on_fresh_instance ++
        flagField "case_sensitive" r.case_sensitive)

/-- Holds `true` when the saved-state `config` value, if present, is not the
wire value `null` (serde folds an encoded `Some(null)` back into
`none` on decode, so such a value cannot round-trip). -/
def SavedStateClockData.cfgOk (s : SavedStateClockData) : Bool :=
  match s.config with
  | none => true
  | some v => !v.isNull

/-- The predicate `cfgOk` lifted through the optional saved-state block. -/
def ScmAwareClockData.cfgOk (s : ScmAwareClockData) : Bool :=
  match s.saved_state with
  | none => true
  | some ss => ss.cfgOk

/-- The predicate `cfgOk` lifted through the optional scm block. -/
def FatClockData.cfgOk (f : FatClockData) : Bool :=
  match f.scm with
  | none => true
  | some s => s.cfgOk

/-- The predicate `cfgOk` lifted to a clock value. -/
def Clock.cfgOk : Clock → Bool
  | .Spec _ => true
  | .ScmAware f => f.cfgOk

@[simp] theorem savedState_toJson_not_null (s : SavedStateClockData) :
    (SavedStateClockData.toJson s).isNull = false := rfl

@[simp] theorem scmAware_toJson_not_null (s : ScmAwareClockData) :
    (ScmAwareClockData.toJson s).isNull = false := rfl

theorem savedState_roundtrip (s : SavedStateClockData) (h : s.cfgOk = true) :
    SavedStateClockData.fromJson s.toJson = some s := by
  obtain ⟨st, cm, cfg⟩ := s
  cases st <;> cases cm <;> cases cfg <;>
    simp_all [SavedStateClockData.toJson, SavedStateClockData.fromJson,
      SavedStateClockData.cfgOk, decOptStr, decOptVal, optField]

theorem scmAware_roundtrip (s : ScmAwareClockData) (h : s.cfgOk = true) :
    ScmAwareClockData.fromJson s.toJson = some s := by
  obtain ⟨mb, mbw, ss⟩ := s
  cases mb <;> cases mbw <;> cases ss <;>
    simp_all [ScmAwareClockData.toJson, ScmAwareClockData.fromJson,
      ScmAwareClockData.cfgOk, decOptStr, decOptWith, optField, savedState_roundtrip]

theorem fatClock_roundtrip (f : FatClockData) (h : f.cfgOk = true) :
    FatClockData.fromJson f.toJson = some f := by
  obtain ⟨⟨c⟩, scm⟩ := f
  cases scm <;>
    simp_all [FatClockData.toJson, FatClockData.fromJson, FatClockData.cfgOk,
      ClockSpec.toJson, ClockSpec.fromJson, decOptWith, optField, scmAware_roundtrip]

theorem clock_roundtrip (c : Clock) (h : c.cfgOk = true) :
    Clock.fromJson (Clock.toJson c) = some c := by
  cases c with
  | Spec s => rfl
  | ScmAware f =>
      have h1 : ClockSpec.fromJson (FatClockData.toJson f) = none := rfl
      simp [Clock.toJson, Clock.fromJson, h1,
        fatClock_roundtrip f (by simpa [Clock.cfgOk] using h)]

/-- Claim C7 counterexample: a since-clock whose saved-state `config`
member is present with the wire value `null`.  Encoding and decoding
it drops the member (serde decodes `null` into an `Option` as
absent), so the round trip does not reproduce the original value. -/
theorem scm_clock_roundtrip_counterexample :
    Clock.fromJson (Clock.toJson (Clock.ScmAware
        ⟨⟨"c:1:2"⟩, some ⟨some "mb", none, some ⟨none, none, some Json.null⟩⟩⟩)) =
      some (Clock.ScmAware
        ⟨⟨"c:1:2"⟩, some ⟨some "mb", none, some ⟨none, none, none⟩⟩⟩) ∧
    Clock.fromJson (Clock.toJson (Clock.ScmAware
        ⟨⟨"c:1:2"⟩, some ⟨some "mb", none, some ⟨none, none, some Json.null⟩⟩⟩)) ≠
      some (Clock.ScmAware
        ⟨⟨"c:1:2"⟩, some ⟨some "mb", none, some ⟨none, none, some Json.null⟩⟩⟩) := by
  have h1 : Clock.fromJson (Clock.toJson (Clock.ScmAware
      ⟨⟨"c:1:2"⟩, some ⟨some "mb", none, some ⟨none, none, some Json.null⟩⟩⟩)) =
      some (Clock.ScmAware
        ⟨⟨"c:1:2"⟩, some ⟨some "mb", none, some ⟨none, none, none⟩⟩⟩) := rfl
  refine ⟨h1, ?_⟩
  rw [h1]
  simp

/-- Claim C7 as amended: encoding a `SubscribeRequest` writes the
since-clock under the `since` key exactly when it is present; a
since-clock carrying source-control metadata survives the
encode/decode round trip exactly, provided its saved-state `config`
member, when present, is not the wire value `null`; and each optional
sub-field of the source-control block contributes its wire key exactly
when it is present (absent sub-fields are omitted, not `null`, and
decode back to absent). -/
theorem subscribeRequest_since_clock_roundtrip
    (r : SubscribeRequest) (c : Clock) (scm : ScmAwareClockData)
    (sst : SavedStateClockData) (f : FatClockData) (h : c.cfgOk = true) :
    (SubscribeRequest.toJson r).getKey "since" = r.since.map Clock.toJson ∧
    Clock.fromJson (Clock.toJson c) = some c ∧
    ("scm" ∈ (FatClockData.toJson f).keys ↔ f.scm.isSome = true) ∧
    ("mergebase" ∈ (ScmAwareClockData.toJson scm).keys ↔ scm.mergebase.isSome = true) ∧
    ("mergebase-with" ∈ (ScmAwareClockData.toJson scm).keys ↔
      scm.mergebase_with.isSome = true) ∧
    ("saved-state" ∈ (ScmAwareClockData.toJson scm).keys ↔
      scm.saved_state.isSome = true) ∧
    ("storage" ∈ (SavedStateClockData.toJson sst).keys ↔ sst.storage.isSome = true) ∧
    ("commit-id" ∈ (SavedStateClockData.toJson sst).keys ↔ sst.commit.isSome = true) ∧
    ("config" ∈ (SavedStateClockData.toJson sst).keys ↔ sst.config.isSome = true) := by
  refine ⟨?_, clock_roundtrip c h, ?_, ?_, ?_, ?_, ?_, ?_, ?_⟩
  · obtain ⟨s, rr, e, fs, b1, b2⟩ := r
    cases s <;> cases rr <;> cases e <;> cases b1 <;> cases b2 <;>
      simp [SubscribeRequest.toJson, Json.getKey, optField, flagField]
  · obtain ⟨cl, sc⟩ := f
    cases sc <;> simp [FatClockData.toJson, optField]
  · obtain ⟨mb, mbw, ss⟩ := scm
    cases mb <;> cases mbw <;> cases ss <;> simp [ScmAwareClockData.toJson, optField]
  · obtain ⟨mb, mbw, ss⟩ := scm
    cases mb <;> cases mbw <;> cases ss <;> simp [ScmAwareClockData.toJson, optField]
  · obtain ⟨mb, mbw, ss⟩ := scm
    cases mb <;> cases mbw <;> cases ss <;> simp [ScmAwareClockData.toJson, optField]
  · obtain ⟨st, cm, cfg⟩ := sst
    cases st <;> cases cm <;> cases cfg <;> simp [SavedStateClockData.toJson, optField]
  · obtain ⟨st, cm, cfg⟩ := sst
    cases st <;> cases cm <;> cases cfg <;> simp [SavedStateClockData.toJson, optField]
  · obtain ⟨st, cm, cfg⟩ := sst
    cases st <;> cases cm <;> cases cfg <;> simp [SavedStateClockData.toJson, optField]

/-- Witness for C7's amended theorem at a concrete subscribe request
whose since-clock carries mergebase and saved-state metadata. -/
theorem subscribeRequest_since_clock_roundtrip_witness :
    Clock.fromJson (Clock.toJson (Clock.ScmAware
        ⟨⟨"c:123:45"⟩, some ⟨some "abcdef", some "main",
          some ⟨some "manifold", some "deadbeef", none⟩⟩⟩)) =
      some (Clock.ScmAware
        ⟨⟨"c:123:45"⟩, some ⟨some "abcdef", some "main",
          some ⟨some "manifold", some "deadbeef", none⟩⟩⟩) :=
  (subscribeRequest_since_clock_roundtrip
    ⟨none, none, none, ["name"], false, false⟩
    (Clock.ScmAware ⟨⟨"c:123:45"⟩, some ⟨some "abcdef", some "main",
      some ⟨some "manifold", some "deadbeef", none⟩⟩⟩)
    ⟨none, none, none⟩ ⟨none, none, none⟩ ⟨⟨"c:0:0"⟩, none⟩ rfl).2.1

/-! ## Query request and clock request (`pdu.rs` lines 28-32, 163-292) -/

/-- Embedding of `PathGeneratorElement` (`pdu.rs` lines 57-62), untagged: a bare
path string or a `{path, depth}` record. -/
inductive PathGeneratorElement where
  | RecursivePath (path : String)
  | ConstrainedDepth (path : String) (depth : Int)

/-- Serde encoding of the untagged `PathGeneratorElement`. -/
def PathGeneratorElement.toJson : PathGeneratorElement → Json
  | .RecursivePath p => .str p
  | .ConstrainedDepth p d => .obj [("path", .str p), ("depth", .int d)]

/-- Encode a list of strings as a wire array. -/
def strListJson (xs : List String) : Json := .arr (xs.map Json.str)

/-- Embedding of `QueryRequestCommon` (`pdu.rs` lines 163-292); paths are embedded
as their strings, the `fields` list as its list of names. -/
structure QueryRequestCommon where
  glob : Option (List String)
  glob_noescape : Bool
  glob_includedotfiles : Bool
  path : Option (List PathGeneratorElement)
  suffix : Option (List String)
  since : Option Clock
  relative_root : Option String
  expression : Option Expr
  fields : List String
  empty_on_fresh_instance : Bool
  case_sensitive : Bool
  sync_timeout : SyncTimeout
  dedup_results : Bool
  lock_timeout : Option Int
  request_id : Option String

/-- Embedding of `derive(Default)` for `QueryRequestCommon`: options absent, flags
false, empty field list, `SyncTimeout::Default`. -/
def QueryRequestCommon.default : QueryRequestCommon :=
  ⟨none, false, false, none, none, none, none, none, [], false, false, .Default,
   false, none, none⟩

/-- Serde encoding of `QueryRequestCommon`: keys in field-declaration
order; `Option` fields skipped when `none`, flags skipped when
`false`, `sync_timeout` skipped when `SyncTimeout::is_default`,
`fields` always present. -/
def QueryRequestCommon.toJson (q : QueryRequestCommon) : Json :=
  .obj (optField "glob" strListJson q.glob ++
        flagField "glob_noescape" q.glob_noescape ++
        flagField "glob_includedotfiles" q.glob_includedotfiles ++
        optField "path" (fun xs => .arr (xs.map PathGeneratorElement.toJson)) q.path ++
        optField "suffix" strListJson q.suffix ++
        optField "since" Clock.toJson q.since ++
        optField "relative_root" Json.str q.relative_root ++
        optField "expression" Expr.toJson q.expression ++
        [("fields", strListJson q.fields)] ++
        flagField "empty_on_fresh_instance" q.empty_on_fresh_instance ++
        flagField "case_sensitive" q.case_sensitive ++
        condField q.sync_timeout.is_default "sync_timeout" (.int q.sync_timeout.intoI64) ++
        flagField "dedup_results" q.dedup_results ++
        optField "lock_timeout" Json.int q.lock_timeout ++
        optField "request_id" Json.str q.request_id)

/-- Embedding of `ClockRequestParams` (`pdu.rs` lines 28-32). -/
structure ClockRequestParams where
  sync_timeout : SyncTimeout

/-- Serde encoding of `ClockRequestParams`: the one field is skipped
when `SyncTimeout::is_disabled`. -/
def ClockRequestParams.toJson (p : ClockRequestParams) : Json :=
  .obj (condField p.sync_timeout.is_disabled "sync_timeout" (.int p.sync_timeout.intoI64))

theorem getKeyList_condField_ne (key name : String) (h : name ≠ key)
    (skip : Bool) (val : Json) :
    getKeyList key (condField skip name val) = none := by
  cases skip <;> simp [condField, h]

/-- Claim C3: the `sync_timeout` wire key is omitted from a clock
request exactly when the value is `DisableCookie`, and omitted from a
query request exactly when the value is `Default`; in every other case
it is present. -/
theorem sync_timeout_omission_by_context (st : SyncTimeout) (q : QueryRequestCommon) :
    ("sync_timeout" ∉ (ClockRequestParams.toJson ⟨st⟩).keys ↔ st = .DisableCookie) ∧
    ("sync_timeout" ∉ (QueryRequestCommon.toJson q).keys ↔ q.sync_timeout = .Default) := by
  constructor
  · cases st <;>
      simp [ClockRequestParams.toJson, condField, SyncTimeout.is_disabled]
  · simp only [QueryRequestCommon.toJson, keys_obj, List.map_append, List.mem_append,
      mem_keys_optField, mem_keys_flagField, mem_keys_condField]
    simp only [List.map_cons, List.map_nil, List.mem_singleton]
    simp
    cases hq : q.sync_timeout <;> simp [SyncTimeout.is_default, hq]

/-- Claim C4: encoding the all-default query bundle (flags false,
optionals absent) with a given `fields` list yields a wire object
whose only key is `fields`; additionally setting
`case_sensitive = true` adds exactly that one boolean key; and
`fields` is present on every encoded query bundle, carrying the field
list, whatever its contents. -/
theorem query_bundle_minimal_encoding (fs : List String) (q : QueryRequestCommon) :
    (QueryRequestCommon.toJson
        { QueryRequestCommon.default with fields := fs }).keys = ["fields"] ∧
    (QueryRequestCommon.toJson
        { QueryRequestCommon.default with fields := fs, case_sensitive := true }).keys =
      ["fields", "case_sensitive"] ∧
    (QueryRequestCommon.toJson
        { QueryRequestCommon.default with fields := fs, case_sensitive := true }).getKey
        "case_sensitive" = some (.bool true) ∧
    "fields" ∈ (QueryRequestCommon.toJson q).keys ∧
    (QueryRequestCommon.toJson q).getKey "fields" = some (strListJson q.fields) := by
  refine ⟨?_, ?_, ?_, ?_, ?_⟩
  · simp [QueryRequestCommon.toJson, QueryRequestCommon.default, optField, flagField,
      condField, SyncTimeout.is_default]
  · simp [QueryRequestCommon.toJson, QueryRequestCommon.default, optField, flagField,
      condField, SyncTimeout.is_default]
  · simp [QueryRequestCommon.toJson, QueryRequestCommon.default, optField, flagField,
      condField, SyncTimeout.is_default, Json.getKey]
  · simp only [QueryRequestCommon.toJson, keys_obj, List.map_append, List.mem_append,
      mem_keys_optField, mem_keys_flagField, mem_keys_condField]
    simp
  · simp [QueryRequestCommon.toJson, Json.getKey, getKeyList_append,
      getKeyList_optField_ne, getKeyList_flagField_ne, getKeyList_condField_ne,
      Option.orElse]

/-! ## ContentSha1Hex (`pdu.rs` lines 554-564) -/

/-- Embedding of `ContentSha1Hex`, `#[serde(untagged)]`: a bare hash string or an
`{error}` record. -/
inductive ContentSha1Hex where
  | Hash (hash : String)
  | Error (error : String)

/-- Serde decoding of the untagged `ContentSha1Hex`: try `Hash` (a
wire string) first, then `Error` (an object whose `error` field is a
required string; unknown keys are ignored). -/
def ContentSha1Hex.fromJson (j : Json) : Option ContentSha1Hex :=
  match j with
  | .str s => some (.Hash s)
  | .obj kvs =>
      match getKeyList "error" kvs with
      | some (.str msg) => some (.Error msg)
      | _ => none
  | _ => none

/-- Claim C8: a wire object with an `error` key decodes to the `Error`
variant carrying the message, a bare string decodes to the `Hash`
variant, and a response list containing a per-file hash error still
decodes successfully — the error is a data value, not a decode
failure. -/
theorem contentSha1Hex_untagged_decode (s msg : String) :
    ContentSha1Hex.fromJson (.str s) = some (.Hash s) ∧
    ContentSha1Hex.fromJson (.obj [("error", .str msg)]) = some (.Error msg) ∧
    decodeList ContentSha1Hex.fromJson
        [.str "da39a3ee5e6b4b0d3255bfef95601890afd80709",
         .obj [("error", .str "no such file")]] =
      some [.Hash "da39a3ee5e6b4b0d3255bfef95601890afd80709", .Error "no such file"] :=
  ⟨rfl, rfl, rfl⟩

/-! ## QueryResult (`pdu.rs` lines 298-334) -/

/-- Embedding of `QueryResult<F>`: generic over the caller-chosen file record. -/
structure QueryResult (F : Type) where
  version : String
  is_fresh_instance : Bool
  files : Option (List F)
  subscription_canceled : Bool
  state_enter : Option String
  state_leave : Option String

/-- Serde decoding of a `#[serde(default)]` `bool` field: missing
gives `false`, a wire boolean gives its value, anything else fails. -/
def decBoolDefault (key : String) (kvs : List (String × Json)) : Option Bool :=
  match getKeyList key kvs with
  | none => some false
  | some (.bool b) => some b
  | some _ => none

/-- Serde decoding of a required `String` field. -/
def decReqStr (key : String) (kvs : List (String × Json)) : Option String :=
  match getKeyList key kvs with
  | some (.str s) => some s
  | _ => none

/-- Serde decoding of an `Option<Vec<F>>` field: missing and `null`
give `none`, an array decodes elementwise, anything else fails. -/
def decOptListWith (dec : Json → Option α) (key : String)
    (kvs : List (String × Json)) : Option (Option (List α)) :=
  match getKeyList key kvs with
  | none => some none
  | some .null => some none
  | some (.arr xs) => (decodeList dec xs).map some
  | some _ => none

/-- Serde decoding of `QueryResult<F>` given the caller's decoder for
`F`: `version` is required; `is_fresh_instance` and `canceled` default
to `false`; `files`, `state-enter` and `state-leave` default to
absent. -/
def QueryResult.fromJson (dec : Json → Option F) : Json → Option (QueryResult F)
  | .obj kvs => do
      let version ← decReqStr "version" kvs
      let is_fresh_instance ← decBoolDefault "is_fresh_instance" kvs
      let files ← decOptListWith dec "files" kvs
      let subscription_canceled ← decBoolDefault "canceled" kvs
      let state_enter ← decOptStr "state-enter" kvs
      let state_leave ← decOptStr "state-leave" kvs
      pure ⟨version, is_fresh_instance, files, subscription_canceled,
            state_enter, state_leave⟩
  | _ => none

/-- Claim C9: a wire object holding only `version` decodes
successfully, defaulting `is_fresh_instance` and `canceled` to
`false` and `files`, `state-enter`, `state-leave` to absent; an object
lacking `version` fails to decode. -/
theorem queryResult_missing_keys_default (F : Type) (dec : Json → Option F)
    (v : String) :
    QueryResult.fromJson dec (.obj [("version", .str v)]) =
      some ⟨v, false, none, false, none, none⟩ ∧
    QueryResult.fromJson dec (.obj []) = none :=
  ⟨rfl, rfl⟩
